import Mathlib

/-!
# TRIP Verifier — formal model of the Criticality Engine

A shallow embedding of the Rust sources of `trip-protocol` (the
`trip-verifier` crate), together with theorems settling the frozen claims
about its specification.

Modelling conventions:

* `f64` values are modelled as exact real numbers (`ℝ`) where the code
  performs transcendental arithmetic (`exp`, `ln`, `cos`), and as exact
  rationals (`ℚ`) where the code only performs field arithmetic and
  comparisons on concrete inputs.  Floating-point rounding is out of scope.
* `chrono::DateTime<Utc>` timestamps are modelled as integers counting
  milliseconds since the Unix epoch; `DateTime::timestamp()` is floor
  division by 1000 and `Timelike::hour()` is `(ms / 3600000) % 24`
  (Euclidean operations, matching chrono on all instants).
* External crates are abstracted at their call boundary: the H3 geometry
  (`h3o`) enters only through `h3_cell_distance_km`, modelled as an
  arbitrary function parameter `dist`; SHA-256 / Ed25519 enter only through
  the (unexecuted) `verify_block_hashes` path and are kept abstract.
* Rust `HashMap`s that the scored code reads through `.get` are modelled as
  functions from keys to counts/probabilities.
* Error messages built with `format!` interpolate numbers via Lean's
  `toString`; claims never inspect the interpolated text.
-/

namespace Trip

/-- `TripError` from `src/error.rs` (constructors for the variants the
modelled code can produce). -/
inductive TripError where
  | chainIntegrity (msg : String)
  | signatureInvalid (index : ℕ)
  | insufficientBreadcrumbs (got need : ℕ)
  | psdError (msg : String)
  | levyFitError (msg : String)
  | invalidH3Cell (cell : String)
  | nonceMismatch
  | deadlineExpired
  | certificateError (msg : String)
  | deserializeError (msg : String)
  deriving Repr, DecidableEq

/-- `MetaFlags` from `src/breadcrumb.rs`: opaque diagnostic bag.  The
engine never reads its fields, so it is modelled by its serialized form. -/
structure MetaFlags where
  battery : Option ℤ
  sampling : String
  state : String
  network : String
  manual : Bool
  deriving Repr, DecidableEq, Inhabited

/-- `Breadcrumb` from `src/breadcrumb.rs`.  `timestamp` is epoch
milliseconds; `accuracy : Option f64` of `MetaFlags` is dropped because no
modelled code path reads it. -/
structure Breadcrumb where
  index : ℕ
  identity_public_key : String
  timestamp : ℤ
  location_cell : String
  location_resolution : ℕ
  context_digest : String
  previous_hash : Option String
  meta_flags : MetaFlags
  signature : String
  block_hash : String
  deriving Repr, DecidableEq, Inhabited

namespace Breadcrumb

/-- `Breadcrumb::unix_seconds`: `timestamp.timestamp() as f64`, i.e. the
epoch-second count (floor of milliseconds / 1000), viewed as a real. -/
def unixSeconds (b : Breadcrumb) : ℤ := Int.fdiv b.timestamp 1000

/-- `Timelike::hour()` of the breadcrumb's UTC timestamp. -/
def hour (b : Breadcrumb) : ℤ := (Int.fdiv b.timestamp 3600000) % 24

end Breadcrumb

/-!
## Chain validation (`src/chain.rs`)
-/

/-- Sorting step of `BreadcrumbChain::from_breadcrumbs`:
`breadcrumbs.sort_by_key(|b| b.index)` (a stable sort). -/
def sortByIndex (bs : List Breadcrumb) : List Breadcrumb :=
  bs.mergeSort (fun a b => a.index ≤ b.index)

/-- Identity check loop of `from_breadcrumbs`: every breadcrumb must carry
the identity of the first one. -/
def checkIdentity (identity : String) : List Breadcrumb → Except TripError Unit
  | [] => .ok ()
  | b :: rest =>
    if b.identity_public_key = identity then
      checkIdentity identity rest
    else
      .error (.chainIntegrity
        ("Mixed identities: expected " ++ identity ++ ", got " ++ b.identity_public_key))

/-- Index check loop of `from_breadcrumbs`: `b.index == i` for the
enumeration position `i`. -/
def checkIndices : ℕ → List Breadcrumb → Except TripError Unit
  | _, [] => .ok ()
  | i, b :: rest =>
    if b.index = i then
      checkIndices (i + 1) rest
    else
      .error (.chainIntegrity
        ("Index gap: expected " ++ toString i ++ ", got " ++ toString b.index ++
          " at position " ++ toString i))

/-- Timestamp monotonicity loop of `from_breadcrumbs` over
`breadcrumbs.windows(2)`. -/
def checkTimestamps : List Breadcrumb → Except TripError Unit
  | b0 :: b1 :: rest =>
    if b1.timestamp ≤ b0.timestamp then
      .error (.chainIntegrity
        ("Non-monotonic timestamp at index " ++ toString b1.index ++ ": " ++
          toString b1.timestamp ++ " <= " ++ toString b0.timestamp))
    else
      checkTimestamps (b1 :: rest)
  | _ => .ok ()

/-- Pair loop of `BreadcrumbChain::verify_hash_chain`. -/
def checkHashLinks : List Breadcrumb → Except TripError Unit
  | b0 :: b1 :: rest =>
    match b1.previous_hash with
    | some prev =>
      if prev = b0.block_hash then
        checkHashLinks (b1 :: rest)
      else
        .error (.chainIntegrity
          ("Hash chain broken at index " ++ toString b1.index ++ ": expected " ++
            b0.block_hash.take 8 ++ ", got " ++ prev.take 8))
    | none =>
      .error (.chainIntegrity ("Missing previous_hash at index " ++ toString b1.index))
  | _ => .ok ()

/-- `BreadcrumbChain::verify_hash_chain`: genesis must have no
`previous_hash`, and each later breadcrumb must reference the prior
`block_hash`. -/
def verifyHashChain (bs : List Breadcrumb) : Except TripError Unit :=
  match bs with
  | [] => .ok ()
  | b0 :: _ =>
    if b0.previous_hash.isSome then
      .error (.chainIntegrity "Genesis block has a previous_hash")
    else
      checkHashLinks bs

/-- `BreadcrumbChain` (the `displacements` field is derived from the
breadcrumbs by `compute_displacements` and is reconstructed on demand by
the analysis model, so it is not duplicated here). -/
structure BreadcrumbChain where
  identity : String
  breadcrumbs : List Breadcrumb
  chain_verified : Bool
  deriving Repr, DecidableEq

/-- `BreadcrumbChain::from_breadcrumbs`: structural validation of a bag of
breadcrumbs.  Performs the identity, index, timestamp, and hash-link
checks — and, per the source comment, *not* Ed25519 signature verification
nor block-hash recomputation. -/
def fromBreadcrumbs (bs : List Breadcrumb) : Except TripError BreadcrumbChain :=
  if bs.isEmpty then
    .error (.insufficientBreadcrumbs 0 1)
  else
    let sorted := sortByIndex bs
    let identity := (sorted.headI).identity_public_key
    do
      checkIdentity identity sorted
      checkIndices 0 sorted
      checkTimestamps sorted
      verifyHashChain sorted
      pure { identity := identity, breadcrumbs := sorted, chain_verified := true }

/-- The content hashed by `BreadcrumbChain::verify_block_hashes`:
the canonical payload fields of a breadcrumb together with its signature —
everything *except* the stored `block_hash`.  SHA-256 itself stays
abstract; any recomputation is some function of this data. -/
def hashContent (b : Breadcrumb) :
    ℕ × String × ℤ × String × ℕ × String × Option String × MetaFlags × String :=
  (b.index, b.identity_public_key, b.timestamp, b.location_cell,
   b.location_resolution, b.context_digest, b.previous_hash, b.meta_flags,
   b.signature)

/-- Invariant 5 of §3, parametric in the hash function: the stored
`block_hash` matches the recomputation `sha256(payload ":" signature)`,
which is a function of `hashContent`. -/
def blockHashMatches (sha : (ℕ × String × ℤ × String × ℕ × String ×
    Option String × MetaFlags × String) → String) (b : Breadcrumb) : Prop :=
  sha (hashContent b) = b.block_hash

/-- Chain invariants 1–4 of §3 of the specification, for a breadcrumb list. -/
def StructuralInvariants (bs : List Breadcrumb) : Prop :=
  bs ≠ [] ∧
  (∀ b ∈ bs, b.identity_public_key = (bs.headI).identity_public_key) ∧
  (∀ i : ℕ, ∀ h : i < bs.length, (bs.get ⟨i, h⟩).index = i) ∧
  List.Chain' (fun a b => a.timestamp < b.timestamp) bs ∧
  (bs.headI).previous_hash = none ∧
  List.Chain' (fun a b => b.previous_hash = some a.block_hash) bs


/-!
## Characterizations of the chain-validation checks
-/

theorem checkIdentity_ok_iff (ident : String) (l : List Breadcrumb) :
    checkIdentity ident l = .ok () ↔ ∀ b ∈ l, b.identity_public_key = ident := by
  induction l with
  | nil => simp [checkIdentity]
  | cons b rest ih =>
    by_cases h : b.identity_public_key = ident
    · simp [checkIdentity, h, ih]
    · simp [checkIdentity, h]

theorem checkIndices_ok_iff (i : ℕ) (l : List Breadcrumb) :
    checkIndices i l = .ok () ↔
      ∀ (j : ℕ) (h : j < l.length), (l.get ⟨j, h⟩).index = i + j := by
  induction l generalizing i with
  | nil => simp [checkIndices]
  | cons b rest ih =>
    by_cases h : b.index = i
    · rw [show checkIndices i (b :: rest) = checkIndices (i + 1) rest by
        simp [checkIndices, h], ih]
      constructor
      · intro H j hj
        match j with
        | 0 => simpa using h
        | j + 1 =>
          have := H j (by simpa using Nat.lt_of_succ_lt_succ hj)
          simpa [Nat.add_assoc, Nat.add_comm 1 j] using this
      · intro H j hj
        have := H (j + 1) (by simpa using Nat.succ_lt_succ hj)
        simpa [Nat.add_assoc, Nat.add_comm 1 j] using this
    · have hne : checkIndices i (b :: rest) ≠ .ok () := by
        simp [checkIndices, h]
      constructor
      · intro hok; exact absurd hok hne
      · intro H
        exact absurd (by simpa using H 0 (Nat.succ_pos _)) h

theorem checkTimestamps_ok_iff (l : List Breadcrumb) :
    checkTimestamps l = .ok () ↔
      List.Chain' (fun a b => a.timestamp < b.timestamp) l := by
  induction l with
  | nil => simp [checkTimestamps]
  | cons b rest ih =>
    cases rest with
    | nil => simp [checkTimestamps]
    | cons b1 rest' =>
      by_cases h : b1.timestamp ≤ b.timestamp
      · simp [checkTimestamps, h, List.chain'_cons]
      · simp [checkTimestamps, h, List.chain'_cons, ih, lt_of_not_le h]

theorem checkHashLinks_ok_iff (l : List Breadcrumb) :
    checkHashLinks l = .ok () ↔
      List.Chain' (fun a b => b.previous_hash = some a.block_hash) l := by
  induction l with
  | nil => simp [checkHashLinks]
  | cons b rest ih =>
    cases rest with
    | nil => simp [checkHashLinks]
    | cons b1 rest' =>
      cases hp : b1.previous_hash with
      | none => simp [checkHashLinks, hp, List.chain'_cons]
      | some prev =>
        by_cases h : prev = b.block_hash
        · simp [checkHashLinks, hp, h, List.chain'_cons, ih]
        · simp [checkHashLinks, hp, h, List.chain'_cons]

theorem verifyHashChain_ok_iff (b : Breadcrumb) (rest : List Breadcrumb) :
    verifyHashChain (b :: rest) = .ok () ↔
      b.previous_hash = none ∧
      List.Chain' (fun a c => c.previous_hash = some a.block_hash) (b :: rest) := by
  cases hp : b.previous_hash with
  | none => simp [verifyHashChain, hp, checkHashLinks_ok_iff]
  | some prev => simp [verifyHashChain, hp]

/-- `Except` results are either `ok` or `error`. -/
theorem except_ok_or_error {ε α : Type} (x : Except ε α) :
    (∃ a, x = .ok a) ∨ (∃ e, x = .error e) := by
  cases x with
  | ok a => exact Or.inl ⟨a, rfl⟩
  | error e => exact Or.inr ⟨e, rfl⟩

theorem fromBreadcrumbs_ok_iff (bs : List Breadcrumb) (c : BreadcrumbChain) :
    fromBreadcrumbs bs = .ok c ↔
      bs ≠ [] ∧
      checkIdentity ((sortByIndex bs).headI).identity_public_key (sortByIndex bs) = .ok () ∧
      checkIndices 0 (sortByIndex bs) = .ok () ∧
      checkTimestamps (sortByIndex bs) = .ok () ∧
      verifyHashChain (sortByIndex bs) = .ok () ∧
      c = ⟨((sortByIndex bs).headI).identity_public_key, sortByIndex bs, true⟩ := by
  unfold fromBreadcrumbs
  by_cases hbs : bs.isEmpty
  · simp [hbs, List.isEmpty_iff.mp hbs]
  · rw [if_neg hbs]
    have hne : bs ≠ [] := by simpa [List.isEmpty_iff] using hbs
    rcases except_ok_or_error (checkIdentity ((sortByIndex bs).headI).identity_public_key
        (sortByIndex bs)) with ⟨⟨⟩, h1⟩ | ⟨e, h1⟩
    · rcases except_ok_or_error (checkIndices 0 (sortByIndex bs)) with ⟨⟨⟩, h2⟩ | ⟨e, h2⟩
      · rcases except_ok_or_error (checkTimestamps (sortByIndex bs)) with ⟨⟨⟩, h3⟩ | ⟨e, h3⟩
        · rcases except_ok_or_error (verifyHashChain (sortByIndex bs)) with ⟨⟨⟩, h4⟩ | ⟨e, h4⟩
          · simp [h1, h2, h3, h4, hne, Bind.bind, Except.bind, Functor.map,
              Except.map, Pure.pure, Except.pure, eq_comm]
          · simp [h1, h2, h3, h4, hne, Bind.bind, Except.bind, Functor.map, Except.map]
        · simp [h1, h2, h3, hne, Bind.bind, Except.bind, Functor.map, Except.map]
      · simp [h1, h2, hne, Bind.bind, Except.bind, Functor.map, Except.map]
    · simp [h1, hne, Bind.bind, Except.bind, Functor.map, Except.map]

theorem sortByIndex_ne_nil {bs : List Breadcrumb} (h : bs ≠ []) :
    sortByIndex bs ≠ [] := by
  intro hnil
  have hlen : (sortByIndex bs).length = bs.length :=
    (List.mergeSort_perm bs (fun a b => a.index ≤ b.index)).length_eq
  rw [hnil] at hlen
  exact h (List.eq_nil_of_length_eq_zero hlen.symm)

/-- Soundness of `from_breadcrumbs` for the four structural invariants. -/
theorem fromBreadcrumbs_ok_structural (bs : List Breadcrumb) (c : BreadcrumbChain)
    (h : fromBreadcrumbs bs = .ok c) :
    c.breadcrumbs = sortByIndex bs ∧ StructuralInvariants c.breadcrumbs := by
  obtain ⟨hne, h1, h2, h3, h4, hc⟩ := (fromBreadcrumbs_ok_iff bs c).mp h
  subst hc
  refine ⟨rfl, sortByIndex_ne_nil hne, ?_, ?_, ?_, ?_, ?_⟩
  · exact (checkIdentity_ok_iff _ _).mp h1
  · intro i hi
    simpa using (checkIndices_ok_iff 0 _).mp h2 i hi
  · exact (checkTimestamps_ok_iff _).mp h3
  · cases hs : sortByIndex bs with
    | nil => exact absurd hs (sortByIndex_ne_nil hne)
    | cons b rest =>
      rw [hs] at h4
      simpa using ((verifyHashChain_ok_iff b rest).mp h4).1
  · cases hs : sortByIndex bs with
    | nil => exact absurd hs (sortByIndex_ne_nil hne)
    | cons b rest =>
      rw [hs] at h4
      exact ((verifyHashChain_ok_iff b rest).mp h4).2

/-- C1, amended.  `from_breadcrumbs` enforces exactly the four structural
§3 invariants (shared identity, dense zero-based indices, strictly
increasing timestamps, and the `previous_hash` chain with an absent genesis
link): every successful result is the index-sorted input and satisfies
them, and any input whose sorted form violates one of them is rejected.
Block-hash recomputation (invariant 5) and Ed25519 signature verification
(invariant 6) are *not* performed by `from_breadcrumbs`. -/
theorem claim_C1_amended (bs : List Breadcrumb) :
    (∀ c, fromBreadcrumbs bs = .ok c →
      c.breadcrumbs = sortByIndex bs ∧ StructuralInvariants c.breadcrumbs) ∧
    (¬ StructuralInvariants (sortByIndex bs) → ∃ e, fromBreadcrumbs bs = .error e) := by
  constructor
  · intro c h
    exact fromBreadcrumbs_ok_structural bs c h
  · intro hviol
    rcases except_ok_or_error (fromBreadcrumbs bs) with ⟨c, hc⟩ | ⟨e, he⟩
    · obtain ⟨hcb, hinv⟩ := fromBreadcrumbs_ok_structural bs c hc
      rw [hcb] at hinv
      exact absurd hinv hviol
    · exact ⟨e, he⟩

/-- A genesis breadcrumb whose stored `block_hash` is the given string;
all other fields fixed. -/
def mkGenesis (bh : String) : Breadcrumb :=
  { index := 0
    identity_public_key := "id"
    timestamp := 0
    location_cell := "cell"
    location_resolution := 10
    context_digest := "ctx"
    previous_hash := none
    meta_flags := ⟨none, "normal", "unknown", "unknown", false⟩
    signature := "sig"
    block_hash := bh }

theorem fromBreadcrumbs_mkGenesis (bh : String) :
    fromBreadcrumbs [mkGenesis bh] =
      .ok ⟨"id", [mkGenesis bh], true⟩ := by
  rw [fromBreadcrumbs_ok_iff]
  refine ⟨by simp, ?_, ?_, ?_, ?_, ?_⟩ <;>
    simp [sortByIndex, checkIdentity, checkIndices, checkTimestamps,
      verifyHashChain, checkHashLinks, mkGenesis]

/-- C1, counterexample to the claim as stated: `from_breadcrumbs` accepts
two single-breadcrumb bags that agree on every hashed field (canonical
payload and signature) yet store different `block_hash` values — so no
recomputation function can certify both, i.e. invariant 5 ("recomputed
block_hash matching") does not hold for every accepted chain, and a bag
violating it is not rejected. -/
theorem claim_C1_counterexample :
    fromBreadcrumbs [mkGenesis "aa"] = .ok ⟨"id", [mkGenesis "aa"], true⟩ ∧
    fromBreadcrumbs [mkGenesis "bb"] = .ok ⟨"id", [mkGenesis "bb"], true⟩ ∧
    hashContent (mkGenesis "aa") = hashContent (mkGenesis "bb") ∧
    ∀ sha, ¬ (blockHashMatches sha (mkGenesis "aa") ∧
              blockHashMatches sha (mkGenesis "bb")) := by
  refine ⟨fromBreadcrumbs_mkGenesis "aa", fromBreadcrumbs_mkGenesis "bb", rfl, ?_⟩
  intro sha ⟨h1, h2⟩
  rw [blockHashMatches] at h1 h2
  rw [show hashContent (mkGenesis "aa") = hashContent (mkGenesis "bb") from rfl] at h1
  rw [h2] at h1
  simp [mkGenesis] at h1

/-- Witness for `claim_C1_amended`: instantiated on a concrete accepted
singleton chain, whose structural invariants it then certifies. -/
theorem claim_C1_amended_witness : StructuralInvariants [mkGenesis "aa"] := by
  have h := (claim_C1_amended [mkGenesis "aa"]).1
    ⟨"id", [mkGenesis "aa"], true⟩ (fromBreadcrumbs_mkGenesis "aa")
  exact h.2

/-!
## Active Verification (`src/verification.rs`)

`Utc::now()` is passed explicitly as `now` (epoch milliseconds);
`Duration::seconds(s)` adds `1000 * s` milliseconds.
-/

/-- `VerificationRequest` (step 1, from the Relying Party).  The nonce is a
byte list. -/
structure VerificationRequest where
  identity_key : String
  nonce : List ℕ
  deriving Repr, DecidableEq

/-- `LivenessChallenge` (step 2). -/
structure LivenessChallenge where
  nonce : List ℕ
  challenge_timestamp : ℤ
  response_deadline_seconds : ℕ
  deriving Repr, DecidableEq

namespace LivenessChallenge

/-- `LivenessChallenge::deadline`. -/
def deadline (c : LivenessChallenge) : ℤ :=
  c.challenge_timestamp + 1000 * (c.response_deadline_seconds : ℤ)

/-- `LivenessChallenge::is_expired`, with `Utc::now()` passed as `now`:
`now > self.deadline()` (strict). -/
def isExpired (now : ℤ) (c : LivenessChallenge) : Bool :=
  decide (c.deadline < now)

end LivenessChallenge

/-- `LivenessResponse` (step 3, from the Attester). -/
structure LivenessResponse where
  nonce_echo : List ℕ
  chain_head_hash : String
  response_timestamp : ℤ
  current_breadcrumb_index : ℕ
  ed25519_signature : String
  deriving Repr, DecidableEq

/-- `SessionState`. -/
inductive SessionState where
  | awaitingResponse
  | evaluating
  | complete
  | failed (reason : String)
  deriving Repr, DecidableEq

/-- `VerificationSession`. -/
structure VerificationSession where
  request : VerificationRequest
  challenge : LivenessChallenge
  state : SessionState
  created_at : ℤ
  deriving Repr, DecidableEq

/-- `VerificationSession::validate_response` (with `Utc::now()` passed as
`now`): deadline check, then nonce check; mutates the session state.
Returns the updated session and the `Result`. -/
def validateResponse (now : ℤ) (s : VerificationSession) (r : LivenessResponse) :
    VerificationSession × Except TripError Unit :=
  if s.challenge.isExpired now then
    ({ s with state := .failed "Deadline expired" }, .error .deadlineExpired)
  else if r.nonce_echo ≠ s.challenge.nonce then
    ({ s with state := .failed "Nonce mismatch" }, .error .nonceMismatch)
  else
    ({ s with state := .evaluating }, .ok ())

/-- A session whose challenge was minted at epoch 0 with the default 30 s
deadline. -/
def testSession : VerificationSession :=
  { request := { identity_key := "abc123", nonce := List.replicate 16 0 }
    challenge := { nonce := List.replicate 16 0
                   challenge_timestamp := 0
                   response_deadline_seconds := 30 }
    state := .awaitingResponse
    created_at := 0 }

/-- A well-formed response echoing `testSession`'s nonce. -/
def testResponse : LivenessResponse :=
  { nonce_echo := List.replicate 16 0
    chain_head_hash := "head"
    response_timestamp := 30000
    current_breadcrumb_index := 500
    ed25519_signature := "sig" }

/-- C6, counterexample to the claim as stated: a response validated exactly
at the deadline (`now = challenge_timestamp + 1000·response_deadline_seconds
= 30000` ms) is *accepted* — `is_expired` uses a strict comparison — so the
session moves to `Evaluating` with `Ok(())`, not to `Failed` with
`DeadlineExpired`. -/
theorem claim_C6_counterexample :
    validateResponse 30000 testSession testResponse =
      ({ testSession with state := .evaluating }, .ok ()) ∧
    (30000 : ℤ) = testSession.challenge.challenge_timestamp +
      1000 * (testSession.challenge.response_deadline_seconds : ℤ) := by
  constructor
  · rfl
  · rfl

/-- C6, amended.  A response arriving strictly after the deadline is
rejected with `DeadlineExpired` and the session state becomes
`Failed("Deadline expired")`; a response arriving at or before the deadline
— including exactly at it — passes the deadline check, so it is never
rejected with `DeadlineExpired` and never fails with that reason. -/
theorem claim_C6_amended (now : ℤ) (s : VerificationSession) (r : LivenessResponse) :
    (s.challenge.deadline < now →
      validateResponse now s r =
        ({ s with state := .failed "Deadline expired" }, .error .deadlineExpired)) ∧
    (now ≤ s.challenge.deadline →
      (validateResponse now s r).2 ≠ .error .deadlineExpired ∧
      (validateResponse now s r).1.state ≠ .failed "Deadline expired") := by
  constructor
  · intro h
    simp [validateResponse, LivenessChallenge.isExpired, h]
  · intro h
    have hni : ¬ s.challenge.deadline < now := not_lt_of_le h
    by_cases hn : r.nonce_echo = s.challenge.nonce
    · simp [validateResponse, LivenessChallenge.isExpired, hni, hn]
    · simp [validateResponse, LivenessChallenge.isExpired, hni, hn]

/-- Witness for `claim_C6_amended` at a concrete late arrival
(`now = 30001`, one millisecond past the deadline). -/
theorem claim_C6_amended_witness :
    validateResponse 30001 testSession testResponse =
      ({ testSession with state := .failed "Deadline expired" },
        .error .deadlineExpired) :=
  (claim_C6_amended 30001 testSession testResponse).1 (by decide)

/-!
## Displacements (`src/breadcrumb.rs`) and the Hamiltonian (`src/hamiltonian.rs`)

The H3 geometry is external (`h3o`); `h3_cell_distance_km` is therefore an
arbitrary parameter `dist` of every definition that needs it.
-/

/-- `Displacement` from `src/breadcrumb.rs`. -/
structure Displacement where
  dt_seconds : ℝ
  distance_km : ℝ
  from_cell : String
  to_cell : String
  timestamp : ℤ

/-- `compute_displacements`: consecutive pairs; `dt` floored at 0.001 s;
distance via the (abstracted) H3 cell-center great-circle function. -/
noncomputable def computeDisplacements (dist : String → String → ℝ)
    (bs : List Breadcrumb) : List Displacement :=
  (bs.zip bs.tail).map (fun p =>
    { dt_seconds := max (((p.2.unixSeconds - p.1.unixSeconds : ℤ) : ℝ)) 0.001
      distance_km := dist p.1.location_cell p.2.location_cell
      from_cell := p.1.location_cell
      to_cell := p.2.location_cell
      timestamp := p.2.timestamp })

/-- `BreadcrumbChain::displacement_series`. -/
noncomputable def displacementSeries (dist : String → String → ℝ)
    (bs : List Breadcrumb) : List ℝ :=
  (computeDisplacements dist bs).map (·.distance_km)

/-- `BreadcrumbChain::interval_series`. -/
noncomputable def intervalSeries (dist : String → String → ℝ)
    (bs : List Breadcrumb) : List ℝ :=
  (computeDisplacements dist bs).map (·.dt_seconds)

/-- `std_dev` helper from `src/hamiltonian.rs` (sample std, n−1 denominator,
0 with fewer than 2 samples). -/
noncomputable def stdDev (values : List ℝ) (mean : ℝ) : ℝ :=
  if values.length < 2 then 0
  else Real.sqrt ((values.map (fun x => (x - mean) ^ 2)).sum / ((values.length - 1 : ℕ) : ℝ))

/-- `HamiltonianWeights`; the Rust field `structure` is spelled `struct`. -/
structure HamiltonianWeights where
  spatial : ℝ
  temporal : ℝ
  kinetic : ℝ
  flock : ℝ
  contextual : ℝ
  struct : ℝ

/-- `HamiltonianWeights::default()`. -/
noncomputable def defaultWeights : HamiltonianWeights :=
  { spatial := 0.25, temporal := 0.20, kinetic := 0.15
    flock := 0.15, contextual := 0.15, struct := 0.10 }

/-- `BehavioralProfile`; the Rust `HashMap`s are modelled as (total)
functions — `.get` on a missing key is `none` exactly when the underlying
count is zero — and `anchor_cells` as the set of cells meeting the
threshold (the source `Vec` order is `HashMap`-iteration order, i.e.
unspecified). -/
structure BehavioralProfile where
  cell_histogram : String → ℕ
  anchor_cells : Set String
  mean_displacement_km : ℝ
  std_displacement_km : ℝ
  hourly_profile : ℤ → ℝ
  mean_interval_seconds : ℝ
  std_interval_seconds : ℝ
  transition_matrix : String → String → Option ℝ

/-- `BehavioralProfile::from_chain`. -/
noncomputable def BehavioralProfile.fromChain (dist : String → String → ℝ)
    (bs : List Breadcrumb) : BehavioralProfile :=
  let n := bs.length
  let hist : String → ℕ := fun c => bs.countP (fun b => b.location_cell == c)
  let threshold : ℤ := ⌈(n : ℝ) * 0.05⌉
  let disp := displacementSeries dist bs
  let mean_d := if disp.isEmpty then 0 else disp.sum / (disp.length : ℝ)
  let hourCount : ℤ → ℕ := fun h => bs.countP (fun b => b.hour == h)
  let ivals := intervalSeries dist bs
  let mean_i := if ivals.isEmpty then 0 else ivals.sum / (ivals.length : ℝ)
  let pairs := bs.zip bs.tail
  let transCount : String → String → ℕ := fun f t =>
    pairs.countP (fun p => p.1.location_cell == f && p.2.location_cell == t)
  let fromCount : String → ℕ := fun f => pairs.countP (fun p => p.1.location_cell == f)
  { cell_histogram := hist
    anchor_cells := {c | 0 < hist c ∧ threshold ≤ (hist c : ℤ)}
    mean_displacement_km := mean_d
    std_displacement_km := stdDev disp mean_d
    hourly_profile := fun h => (hourCount h : ℝ) / ((max n 1 : ℕ) : ℝ)
    mean_interval_seconds := mean_i
    std_interval_seconds := stdDev ivals mean_i
    transition_matrix := fun f t =>
      if transCount f t = 0 then none
      else some ((transCount f t : ℝ) / (if fromCount f = 0 then 1 else (fromCount f : ℝ))) }

/-- `sigmoid(x, midpoint) = 1 / (1 + exp(−2·(x − midpoint)))`. -/
noncomputable def sigmoid (x midpoint : ℝ) : ℝ :=
  1 / (1 + Real.exp (-2 * (x - midpoint)))

/-- `compute_h_spatial`. -/
noncomputable def computeHSpatial (dist : String → String → ℝ)
    (current : Breadcrumb) (prev : Option Breadcrumb)
    (profile : BehavioralProfile) : ℝ :=
  match prev with
  | none => 0
  | some p =>
    let d := dist p.location_cell current.location_cell
    if profile.std_displacement_km < 0.001 then 0
    else sigmoid |(d - profile.mean_displacement_km) / profile.std_displacement_km| 3

/-- `compute_h_temporal` (no genesis special case in the source). -/
noncomputable def computeHTemporal (current : Breadcrumb)
    (profile : BehavioralProfile) : ℝ :=
  let hour_activity := profile.hourly_profile current.hour
  if hour_activity < 0.001 then 0.8
  else 1 - min (hour_activity * 24) 1

/-- `compute_h_kinetic`. -/
noncomputable def computeHKinetic (current : Breadcrumb) (prev : Option Breadcrumb)
    (profile : BehavioralProfile) : ℝ :=
  match prev with
  | none => 0
  | some p =>
    match profile.transition_matrix p.location_cell current.location_cell with
    | some prob => if 0 < prob then sigmoid (-Real.logb 2 prob) 5 else 0.7
    | none => 0.7

/-- `compute_h_flock`: neutral 0.0 in single-identity mode. -/
noncomputable def computeHFlock (_current : Breadcrumb) : ℝ := 0

/-- `compute_h_contextual`. -/
noncomputable def computeHContextual (current : Breadcrumb)
    (prev : Option Breadcrumb) : ℝ :=
  match prev with
  | none => 0
  | some p =>
    if current.location_cell ≠ p.location_cell ∧
        current.context_digest = p.context_digest then 0.6
    else 0

/-- `compute_h_structure`. -/
noncomputable def computeHStructure (current : Breadcrumb) (prev : Option Breadcrumb)
    (profile : BehavioralProfile) : ℝ :=
  match prev with
  | none => 0
  | some p =>
    let dt := max (((current.unixSeconds - p.unixSeconds : ℤ) : ℝ)) 0.001
    if profile.std_interval_seconds < 0.001 then 0
    else sigmoid |(dt - profile.mean_interval_seconds) / profile.std_interval_seconds| 3

/-- `AlertLevel` per TRIP spec Table 7. -/
inductive AlertLevel where
  | green
  | yellow
  | orange
  | red
  deriving Repr, DecidableEq, BEq

/-- `AlertLevel::from_energy`. -/
noncomputable def AlertLevel.fromEnergy (h : ℝ) : AlertLevel :=
  if h < 0.3 then .green
  else if h < 0.6 then .yellow
  else if h < 0.8 then .orange
  else .red

/-- `HamiltonianScore` (Rust field `h_structure` keeps its name). -/
structure HamiltonianScore where
  index : ℕ
  h_spatial : ℝ
  h_temporal : ℝ
  h_kinetic : ℝ
  h_flock : ℝ
  h_contextual : ℝ
  h_structure : ℝ
  h_total : ℝ
  alert_level : AlertLevel

/-- `AlertCounts`. -/
structure AlertCounts where
  green : ℕ
  yellow : ℕ
  orange : ℕ
  red : ℕ

/-- `ChainHamiltonianResult`. -/
structure ChainHamiltonianResult where
  scores : List HamiltonianScore
  mean_energy : ℝ
  max_energy : ℝ
  alert_count : AlertCounts

/-- Loop body of `evaluate_hamiltonian` at enumeration entry `(i, b)`:
`prev` is `breadcrumbs[i−1]` for `i > 0`. -/
noncomputable def scoreBreadcrumb (dist : String → String → ℝ)
    (bs : List Breadcrumb) (profile : BehavioralProfile)
    (weights : HamiltonianWeights) (p : ℕ × Breadcrumb) : HamiltonianScore :=
  let i := p.1
  let b := p.2
  let prev : Option Breadcrumb := if 0 < i then bs.get? (i - 1) else none
  let hs := computeHSpatial dist b prev profile
  let ht := computeHTemporal b profile
  let hk := computeHKinetic b prev profile
  let hf := computeHFlock b
  let hc := computeHContextual b prev
  let hst := computeHStructure b prev profile
  let h_total := weights.spatial * hs + weights.temporal * ht + weights.kinetic * hk
    + weights.flock * hf + weights.contextual * hc + weights.struct * hst
  { index := b.index
    h_spatial := hs, h_temporal := ht, h_kinetic := hk, h_flock := hf
    h_contextual := hc, h_structure := hst, h_total := h_total
    alert_level := AlertLevel.fromEnergy h_total }

/-- `evaluate_hamiltonian`. -/
noncomputable def evaluateHamiltonian (dist : String → String → ℝ)
    (bs : List Breadcrumb) (profile : BehavioralProfile)
    (weights : HamiltonianWeights) : ChainHamiltonianResult :=
  let scores := bs.enum.map (scoreBreadcrumb dist bs profile weights)
  { scores := scores
    mean_energy :=
      if scores.isEmpty then 0
      else (scores.map (·.h_total)).sum / (scores.length : ℝ)
    max_energy := (scores.map (·.h_total)).foldl max 0
    alert_count :=
      { green := scores.countP (·.alert_level == .green)
        yellow := scores.countP (·.alert_level == .yellow)
        orange := scores.countP (·.alert_level == .orange)
        red := scores.countP (·.alert_level == .red) } }

/-!
## Bounds on the Hamiltonian components
-/

theorem sigmoid_nonneg (x m : ℝ) : 0 ≤ sigmoid x m := by
  unfold sigmoid
  positivity

theorem sigmoid_le_one (x m : ℝ) : sigmoid x m ≤ 1 := by
  unfold sigmoid
  rw [div_le_one (by positivity)]
  linarith [Real.exp_pos (-2 * (x - m))]

theorem computeHSpatial_mem (dist : String → String → ℝ) (b : Breadcrumb)
    (prev : Option Breadcrumb) (profile : BehavioralProfile) :
    0 ≤ computeHSpatial dist b prev profile ∧
      computeHSpatial dist b prev profile ≤ 1 := by
  cases prev with
  | none => simp [computeHSpatial]
  | some p =>
    simp only [computeHSpatial]
    split
    · norm_num
    · exact ⟨sigmoid_nonneg _ _, sigmoid_le_one _ _⟩

theorem computeHTemporal_mem (b : Breadcrumb) (profile : BehavioralProfile)
    (hact : 0 ≤ profile.hourly_profile b.hour) :
    0 ≤ computeHTemporal b profile ∧ computeHTemporal b profile ≤ 1 := by
  simp only [computeHTemporal]
  split
  · norm_num
  · constructor
    · have : min (profile.hourly_profile b.hour * 24) 1 ≤ 1 := min_le_right _ _
      linarith
    · have : 0 ≤ min (profile.hourly_profile b.hour * 24) 1 :=
        le_min (by linarith) (by norm_num)
      linarith

theorem computeHKinetic_mem (b : Breadcrumb) (prev : Option Breadcrumb)
    (profile : BehavioralProfile) :
    0 ≤ computeHKinetic b prev profile ∧ computeHKinetic b prev profile ≤ 1 := by
  cases prev with
  | none => simp [computeHKinetic]
  | some p =>
    simp only [computeHKinetic]
    cases profile.transition_matrix p.location_cell b.location_cell with
    | none => norm_num
    | some prob =>
      simp only
      split
      · exact ⟨sigmoid_nonneg _ _, sigmoid_le_one _ _⟩
      · norm_num

theorem computeHContextual_mem (b : Breadcrumb) (prev : Option Breadcrumb) :
    0 ≤ computeHContextual b prev ∧ computeHContextual b prev ≤ 1 := by
  cases prev with
  | none => simp [computeHContextual]
  | some p =>
    simp only [computeHContextual]
    split
    · norm_num
    · norm_num

theorem computeHStructure_mem (b : Breadcrumb) (prev : Option Breadcrumb)
    (profile : BehavioralProfile) :
    0 ≤ computeHStructure b prev profile ∧
      computeHStructure b prev profile ≤ 1 := by
  cases prev with
  | none => simp [computeHStructure]
  | some p =>
    simp only [computeHStructure]
    split
    · norm_num
    · exact ⟨sigmoid_nonneg _ _, sigmoid_le_one _ _⟩

theorem fromChain_hourly_nonneg (dist : String → String → ℝ)
    (bs : List Breadcrumb) (h : ℤ) :
    0 ≤ (BehavioralProfile.fromChain dist bs).hourly_profile h := by
  simp only [BehavioralProfile.fromChain]
  positivity

/-- The four alert levels partition every score list. -/
theorem alertLevel_partition (l : List HamiltonianScore) :
    l.countP (·.alert_level == AlertLevel.green) +
    l.countP (·.alert_level == AlertLevel.yellow) +
    l.countP (·.alert_level == AlertLevel.orange) +
    l.countP (·.alert_level == AlertLevel.red) = l.length := by
  induction l with
  | nil => simp
  | cons s t ih =>
    simp only [List.countP_cons, List.length_cons]
    cases h : s.alert_level <;> simp +decide [h] <;> omega

/-- C10 (implicit).  With the default weights — which are non-negative and
sum to 1 — every per-breadcrumb Hamiltonian component and total energy lies
in [0, 1] (the profile being the one learned from the chain), and the four
alert-level counts sum to the number of breadcrumbs. -/
theorem claim_C10 (dist : String → String → ℝ) (bs : List Breadcrumb) :
    (defaultWeights.spatial + defaultWeights.temporal + defaultWeights.kinetic +
      defaultWeights.flock + defaultWeights.contextual + defaultWeights.struct = 1 ∧
     0 ≤ defaultWeights.spatial ∧ 0 ≤ defaultWeights.temporal ∧
     0 ≤ defaultWeights.kinetic ∧ 0 ≤ defaultWeights.flock ∧
     0 ≤ defaultWeights.contextual ∧ 0 ≤ defaultWeights.struct) ∧
    (∀ s ∈ (evaluateHamiltonian dist bs (BehavioralProfile.fromChain dist bs)
        defaultWeights).scores,
      (0 ≤ s.h_spatial ∧ s.h_spatial ≤ 1) ∧
      (0 ≤ s.h_temporal ∧ s.h_temporal ≤ 1) ∧
      (0 ≤ s.h_kinetic ∧ s.h_kinetic ≤ 1) ∧
      (0 ≤ s.h_flock ∧ s.h_flock ≤ 1) ∧
      (0 ≤ s.h_contextual ∧ s.h_contextual ≤ 1) ∧
      (0 ≤ s.h_structure ∧ s.h_structure ≤ 1) ∧
      (0 ≤ s.h_total ∧ s.h_total ≤ 1)) ∧
    ((evaluateHamiltonian dist bs (BehavioralProfile.fromChain dist bs)
        defaultWeights).alert_count.green +
     (evaluateHamiltonian dist bs (BehavioralProfile.fromChain dist bs)
        defaultWeights).alert_count.yellow +
     (evaluateHamiltonian dist bs (BehavioralProfile.fromChain dist bs)
        defaultWeights).alert_count.orange +
     (evaluateHamiltonian dist bs (BehavioralProfile.fromChain dist bs)
        defaultWeights).alert_count.red = bs.length) := by
  refine ⟨⟨by norm_num [defaultWeights], by norm_num [defaultWeights],
    by norm_num [defaultWeights], by norm_num [defaultWeights],
    by norm_num [defaultWeights], by norm_num [defaultWeights],
    by norm_num [defaultWeights]⟩, ?_, ?_⟩
  · intro s hs
    simp only [evaluateHamiltonian, List.mem_map] at hs
    obtain ⟨p, _, rfl⟩ := hs
    simp only [scoreBreadcrumb]
    have h1 := computeHSpatial_mem dist p.2
      (if 0 < p.1 then bs.get? (p.1 - 1) else none) (BehavioralProfile.fromChain dist bs)
    have h2 := computeHTemporal_mem p.2 (BehavioralProfile.fromChain dist bs)
      (fromChain_hourly_nonneg dist bs p.2.hour)
    have h3 := computeHKinetic_mem p.2
      (if 0 < p.1 then bs.get? (p.1 - 1) else none) (BehavioralProfile.fromChain dist bs)
    have h4 : (0:ℝ) ≤ computeHFlock p.2 ∧ computeHFlock p.2 ≤ 1 := by
      simp [computeHFlock]
    have h5 := computeHContextual_mem p.2
      (if 0 < p.1 then bs.get? (p.1 - 1) else none)
    have h6 := computeHStructure_mem p.2
      (if 0 < p.1 then bs.get? (p.1 - 1) else none) (BehavioralProfile.fromChain dist bs)
    refine ⟨h1, h2, h3, h4, h5, h6, ?_, ?_⟩
    · simp only [defaultWeights]
      nlinarith [h1.1, h2.1, h3.1, h4.1, h5.1, h6.1]
    · simp only [defaultWeights]
      nlinarith [h1.2, h2.2, h3.2, h4.2, h5.2, h6.2, h1.1, h2.1, h3.1, h4.1, h5.1, h6.1]
  · simp only [evaluateHamiltonian]
    rw [alertLevel_partition]
    simp

/-- `h3_cell_distance_km` when neither cell parses as a valid H3 index —
the source falls back to 0.0.  The test chains below use non-hex cell
strings, so this is the exact distance function for them. -/
noncomputable def dist0 : String → String → ℝ := fun _ _ => 0

/-- Breadcrumb `i` of the 25-element test chain: genesis at UTC hour 0,
all later breadcrumbs inside UTC hour 1. -/
def tempCrumb (i : ℕ) : Breadcrumb :=
  { index := i
    identity_public_key := "id"
    timestamp := if i = 0 then 0 else 3600000 + (i : ℤ)
    location_cell := "cell"
    location_resolution := 10
    context_digest := "ctx"
    previous_hash := if i = 0 then none else some "h"
    meta_flags := ⟨none, "normal", "unknown", "unknown", false⟩
    signature := "sig"
    block_hash := "h" }

/-- A 25-breadcrumb chain accepted by `from_breadcrumbs`; exactly one
breadcrumb (the genesis) falls in UTC hour 0. -/
def tempChainList : List Breadcrumb := (List.range 25).map tempCrumb

theorem tempChainList_valid :
    fromBreadcrumbs tempChainList = .ok ⟨"id", tempChainList, true⟩ := by
  have hsort : sortByIndex tempChainList = tempChainList :=
    List.mergeSort_of_sorted (by decide)
  rw [fromBreadcrumbs_ok_iff, hsort]
  exact ⟨by decide, rfl, rfl, rfl, rfl, rfl⟩

theorem tempChainList_hour_count :
    tempChainList.countP (fun b => b.hour == (0:ℤ)) = 1 := by decide

/-- C2, counterexample to the claim as stated: on a validated
25-breadcrumb chain whose genesis is the only breadcrumb in its UTC hour,
the genesis Hamiltonian score has `h_temporal = 1/25 ≠ 0` under the
profile learned from the chain itself — the temporal component has no
genesis special case. -/
theorem claim_C2_counterexample :
    fromBreadcrumbs tempChainList = .ok ⟨"id", tempChainList, true⟩ ∧
    ∃ s, (evaluateHamiltonian dist0 tempChainList
        (BehavioralProfile.fromChain dist0 tempChainList) defaultWeights).scores.head? =
        some s ∧
      s.index = 0 ∧ s.h_temporal = 1 / 25 ∧ s.h_temporal ≠ 0 := by
  refine ⟨tempChainList_valid, scoreBreadcrumb dist0 tempChainList
    (BehavioralProfile.fromChain dist0 tempChainList) defaultWeights (0, tempCrumb 0),
    ?_, ?_, ?_, ?_⟩
  · show (tempChainList.enum.map _).head? = _
    rfl
  · rfl
  · show computeHTemporal (tempCrumb 0)
      (BehavioralProfile.fromChain dist0 tempChainList) = 1 / 25
    have hhour : (tempCrumb 0).hour = 0 := by decide
    have hact : (BehavioralProfile.fromChain dist0 tempChainList).hourly_profile 0
        = 1 / 25 := by
      simp only [BehavioralProfile.fromChain]
      rw [tempChainList_hour_count]
      norm_num [show tempChainList.length = 25 from by decide]
    rw [computeHTemporal, hhour, hact]
    rw [if_neg (by norm_num)]
    rw [min_eq_left (by norm_num)]
    norm_num
  · show computeHTemporal (tempCrumb 0)
      (BehavioralProfile.fromChain dist0 tempChainList) ≠ 0
    have hhour : (tempCrumb 0).hour = 0 := by decide
    have hact : (BehavioralProfile.fromChain dist0 tempChainList).hourly_profile 0
        = 1 / 25 := by
      simp only [BehavioralProfile.fromChain]
      rw [tempChainList_hour_count]
      norm_num [show tempChainList.length = 25 from by decide]
    rw [computeHTemporal, hhour, hact]
    rw [if_neg (by norm_num)]
    rw [min_eq_left (by norm_num)]
    norm_num

/-- C2, amended.  For every chain, profile and weights, the genesis
breadcrumb's Hamiltonian score has the five predecessor-dependent
components — spatial, kinetic, flock, contextual, structure — equal to
0.0; its temporal component instead follows the hourly-activity formula of
`compute_h_temporal` and need not be 0. -/
theorem claim_C2_amended (dist : String → String → ℝ) (bs : List Breadcrumb)
    (profile : BehavioralProfile) (weights : HamiltonianWeights)
    (s : HamiltonianScore)
    (h : (evaluateHamiltonian dist bs profile weights).scores.head? = some s) :
    s.h_spatial = 0 ∧ s.h_kinetic = 0 ∧ s.h_flock = 0 ∧ s.h_contextual = 0 ∧
    s.h_structure = 0 ∧ s.h_temporal = computeHTemporal bs.headI profile := by
  cases bs with
  | nil => simp [evaluateHamiltonian] at h
  | cons b t =>
    have hh : (evaluateHamiltonian dist (b :: t) profile weights).scores.head? =
        some (scoreBreadcrumb dist (b :: t) profile weights (0, b)) := by
      simp [evaluateHamiltonian, List.enum_cons]
    rw [hh] at h
    obtain rfl := (Option.some.injEq _ _).mp h
    refine ⟨?_, ?_, ?_, ?_, ?_, ?_⟩ <;>
      simp [scoreBreadcrumb, computeHSpatial, computeHKinetic, computeHFlock,
        computeHContextual, computeHStructure]

/-- Witness for `claim_C2_amended` on the concrete 25-breadcrumb chain. -/
theorem claim_C2_amended_witness :
    (scoreBreadcrumb dist0 tempChainList
        (BehavioralProfile.fromChain dist0 tempChainList) defaultWeights
        (0, tempCrumb 0)).h_spatial = 0 ∧
    (scoreBreadcrumb dist0 tempChainList
        (BehavioralProfile.fromChain dist0 tempChainList) defaultWeights
        (0, tempCrumb 0)).h_kinetic = 0 ∧
    (scoreBreadcrumb dist0 tempChainList
        (BehavioralProfile.fromChain dist0 tempChainList) defaultWeights
        (0, tempCrumb 0)).h_flock = 0 ∧
    (scoreBreadcrumb dist0 tempChainList
        (BehavioralProfile.fromChain dist0 tempChainList) defaultWeights
        (0, tempCrumb 0)).h_contextual = 0 ∧
    (scoreBreadcrumb dist0 tempChainList
        (BehavioralProfile.fromChain dist0 tempChainList) defaultWeights
        (0, tempCrumb 0)).h_structure = 0 ∧
    (scoreBreadcrumb dist0 tempChainList
        (BehavioralProfile.fromChain dist0 tempChainList) defaultWeights
        (0, tempCrumb 0)).h_temporal =
      computeHTemporal tempChainList.headI
        (BehavioralProfile.fromChain dist0 tempChainList) :=
  claim_C2_amended dist0 tempChainList
    (BehavioralProfile.fromChain dist0 tempChainList) defaultWeights _ rfl

/-!
## Truncated Lévy flight fitting (`src/levy.rs`)

Displacement inputs are `ℚ` (every `f64` value is an exact rational);
the transcendental fitting arithmetic is over `ℝ`.  The `is_finite`
filter of the source is vacuous here since `ℚ` has no infinities/NaN.
-/

/-- `LevyClassification`. -/
inductive LevyClassification where
  | tooConcentrated
  | borderline
  | humanLevy
  | highMobility
  | ballistic
  deriving Repr, DecidableEq

/-- `LevyClassification::from_beta`. -/
noncomputable def LevyClassification.fromBeta (beta : ℝ) : LevyClassification :=
  if beta < 0.5 then .tooConcentrated
  else if beta < 0.8 then .borderline
  else if beta ≤ 1.2 then .humanLevy
  else if beta ≤ 1.8 then .highMobility
  else .ballistic

/-- `LevyResult`. -/
structure LevyResultM where
  beta : ℝ
  kappa_km : ℝ
  ks_statistic : ℝ
  n_samples : ℕ
  classification : LevyClassification

/-- `normalization_constant`: trapezoidal quadrature of
`x^(−1−β)·exp(−x/κ)` over `[x_min, x_min + 20κ]` with 1000 intervals. -/
noncomputable def normalizationConstant (beta kappa x_min : ℝ) : ℝ :=
  let x_max := x_min + 20 * kappa
  let dx := (x_max - x_min) / 1000
  let integral := ∑ i ∈ Finset.range 1001,
    (if i = 0 ∨ i = 1000 then (0.5 : ℝ) else 1) *
      ((x_min + dx * i) ^ (-1 - beta) * Real.exp (-(x_min + dx * i) / kappa))
  integral * dx

/-- `log_likelihood_truncated_pareto`; the source's `f64::NEG_INFINITY`
sentinel is `⊥` in `WithBot ℝ` (the `!z.is_finite()` disjunct is vacuous
over `ℝ`). -/
noncomputable def logLikelihoodTruncatedPareto (data : List ℝ)
    (beta kappa x_min : ℝ) : WithBot ℝ :=
  let z := normalizationConstant beta kappa x_min
  if z ≤ 0 then ⊥
  else ↑((data.map (fun x => (-1 - beta) * Real.log x - x / kappa - Real.log z)).sum)

/-- `estimate_kappa`: grid search over 100 log-spaced candidates, keeping
the strictly best log-likelihood (initial best: `x_max`, `−∞`). -/
noncomputable def estimateKappa (sorted_data : List ℝ) (beta x_min : ℝ) : ℝ :=
  let x_max := sorted_data.getLast?.getD 100
  let log_min := Real.log x_min
  let log_max := Real.log (10 * x_max)
  ((List.range 100).foldl (fun best i =>
    let kappa := Real.exp (log_min + (log_max - log_min) * i / 100)
    let ll := logLikelihoodTruncatedPareto sorted_data beta kappa x_min
    if best.2 < ll then (kappa, ll) else best)
    ((x_max, ⊥) : ℝ × WithBot ℝ)).1

/-- `ks_test_truncated_pareto`. -/
noncomputable def ksTestTruncatedPareto (sorted_data : List ℝ)
    (beta kappa x_min : ℝ) : ℝ :=
  let n := (sorted_data.length : ℝ)
  let z_total := normalizationConstant beta kappa x_min
  if z_total ≤ 0 then 1
  else
    (sorted_data.enum.map (fun p =>
      |((p.1 + 1 : ℕ) : ℝ) / n -
        (1 - normalizationConstant beta kappa p.2 / z_total)|)).foldl max 0

/-- `fit_levy`. -/
noncomputable def fitLevy (displacements : List ℚ) (x_min : ℚ) :
    Except TripError LevyResultM :=
  let valid := displacements.filter (fun d => x_min < d)
  if valid.length < 20 then
    .error (.levyFitError ("Need at least 20 displacements above x_min=" ++
      toString x_min ++ "km, got " ++ toString valid.length))
  else
    let sorted := valid.mergeSort (fun a b => a ≤ b)
    let n := sorted.length
    let sum_log : ℝ := (sorted.map (fun x : ℚ => Real.log ((x : ℝ) / (x_min : ℝ)))).sum
    if sum_log ≤ 0 then
      .error (.levyFitError "All displacements equal to x_min")
    else
      let beta_hill := (n : ℝ) / sum_log
      let sortedR := sorted.map (fun q : ℚ => (q : ℝ))
      let kappa := estimateKappa sortedR beta_hill (x_min : ℝ)
      .ok
        { beta := beta_hill
          kappa_km := kappa
          ks_statistic := ksTestTruncatedPareto sortedR beta_hill kappa (x_min : ℝ)
          n_samples := n
          classification := LevyClassification.fromBeta beta_hill }

/-- `fit_levy_default`: `x_min = 0.01` km. -/
noncomputable def fitLevyDefault (displacements : List ℚ) :
    Except TripError LevyResultM :=
  fitLevy displacements (1 / 100)

/-- C9 (implicit).  Whenever `x_min > 0` and at least 20 displacements are
strictly above `x_min`, every retained sample has `ln(x/x_min) > 0`, so the
Hill denominator is strictly positive and `fit_levy` succeeds — the
"All displacements equal to x_min" branch is unreachable. -/
theorem claim_C9 (l : List ℚ) (x_min : ℚ) (hx : 0 < x_min)
    (h20 : 20 ≤ (l.filter (fun d => x_min < d)).length) :
    0 < (((l.filter (fun d => x_min < d)).mergeSort (fun a b => a ≤ b)).map
        (fun x : ℚ => Real.log ((x : ℝ) / (x_min : ℝ)))).sum ∧
    ∃ r, fitLevy l x_min = .ok r := by
  have hsum : 0 < (((l.filter (fun d => x_min < d)).mergeSort (fun a b => a ≤ b)).map
      (fun x : ℚ => Real.log ((x : ℝ) / (x_min : ℝ)))).sum := by
    apply List.sum_pos
    · intro v hv
      obtain ⟨q, hq, rfl⟩ := List.mem_map.mp hv
      have hq' : q ∈ l.filter (fun d => x_min < d) :=
        (List.mergeSort_perm _ _).mem_iff.mp hq
      have hlt : x_min < q := by
        have := (List.mem_filter.mp hq').2
        exact of_decide_eq_true this
      apply Real.log_pos
      rw [one_lt_div (by exact_mod_cast hx)]
      exact_mod_cast hlt
    · intro hnil
      have hlen : ((l.filter (fun d => x_min < d)).mergeSort (fun a b => a ≤ b)).length = 0 := by
        have := congrArg List.length hnil
        simpa using this
      rw [(List.mergeSort_perm _ _).length_eq] at hlen
      omega
  refine ⟨hsum, ?_⟩
  simp only [fitLevy]
  rw [if_neg (by omega), if_neg (not_le.mpr hsum)]
  exact ⟨_, rfl⟩

/-- Witness for `claim_C9`: twenty displacements of 2 km above a 1 km
threshold. -/
theorem claim_C9_witness :
    0 < ((((List.replicate 20 (2:ℚ)).filter (fun d => (1:ℚ) < d)).mergeSort
        (fun a b => a ≤ b)).map
        (fun x : ℚ => Real.log ((x : ℝ) / ((1:ℚ) : ℝ)))).sum ∧
    ∃ r, fitLevy (List.replicate 20 (2:ℚ)) 1 = .ok r :=
  claim_C9 (List.replicate 20 (2:ℚ)) 1 (by norm_num) (by decide)

/-!
## Power Spectral Density analysis (`src/psd.rs`)

`rustfft`'s forward FFT is the exact DFT
`X[i] = Σ_k x[k]·exp(−2πi·ik/N)`, modelled over `ℂ`.  The `while` loops of
the source are modelled with explicit fuel; `n + 1` steps always suffice
(segment lengths only grow, starts advance by at least 32 each turn).
-/

/-- `PsdClassification`. -/
inductive PsdClassification where
  | whiteNoise
  | borderline
  | biological
  | strongCorrelation
  | brownNoise
  deriving Repr, DecidableEq

/-- `PsdClassification::from_alpha`. -/
noncomputable def PsdClassification.fromAlpha (alpha : ℝ) : PsdClassification :=
  if alpha < 0.10 then .whiteNoise
  else if alpha < 0.30 then .borderline
  else if alpha ≤ 0.80 then .biological
  else if alpha ≤ 1.50 then .strongCorrelation
  else .brownNoise

/-- `PsdResult`. -/
structure PsdResultM where
  alpha : ℝ
  r_squared : ℝ
  num_bins : ℕ
  spectrum : List (ℝ × ℝ)
  classification : PsdClassification

/-- The doubling loop of `optimal_segment_length`:
`while seg * 2 <= total_samples / 2 { seg *= 2 }`, with fuel. -/
def oslGo (half : ℕ) : ℕ → ℕ → ℕ
  | 0, seg => seg
  | fuel + 1, seg => if seg * 2 ≤ half then oslGo half fuel (seg * 2) else seg

/-- `optimal_segment_length`: start at 64, double while
`seg * 2 ≤ n / 2`, then `.max(32)`. -/
def optimalSegmentLength (n : ℕ) : ℕ := max (oslGo (n / 2) n 64) 32

/-- The segment loop of `compute_psd`:
`start = 0; while start + segment_len <= n { ...; start += step }`,
collecting the start offsets (fuelled). -/
def segStartsGo (n seg step : ℕ) : ℕ → ℕ → List ℕ
  | 0, _ => []
  | fuel + 1, start =>
    if start + seg ≤ n then start :: segStartsGo n seg step fuel (start + step)
    else []

/-- All segment start offsets of `compute_psd`. -/
def segmentStarts (n seg step : ℕ) : List ℕ := segStartsGo n seg step (n + 1) 0

/-- `hann(size)`: `w[k] = 0.5·(1 − cos(2π·k/(N−1)))`. -/
noncomputable def hann (size : ℕ) : List ℝ :=
  (List.range size).map (fun i =>
    0.5 * (1 - Real.cos (2 * Real.pi * (i : ℝ) / ((size : ℝ) - 1))))

/-- Forward DFT bin `i` of a real buffer of length `N`
(`rustfft` plan_fft_forward semantics). -/
noncomputable def dftBin (x : List ℝ) (N : ℕ) (i : ℕ) : ℂ :=
  ∑ k ∈ Finset.range N,
    ((x.getD k 0 : ℝ) : ℂ) *
      Complex.exp (-2 * Real.pi * Complex.I * (i : ℕ) * (k : ℕ) / (N : ℕ))

/-- `linear_regression`: returns `(slope, intercept, r_squared)`;
`f64::EPSILON = 2^(−52)`. -/
noncomputable def linearRegression (x y : List ℝ) : ℝ × ℝ × ℝ :=
  let n := (x.length : ℝ)
  let sum_x := x.sum
  let sum_y := y.sum
  let sum_xy := ((x.zip y).map (fun p => p.1 * p.2)).sum
  let sum_x2 := (x.map (fun a => a * a)).sum
  let sum_y2 := (y.map (fun a => a * a)).sum
  let denom := n * sum_x2 - sum_x * sum_x
  if |denom| < (2 : ℝ) ^ (-52 : ℤ) then (0, 0, 0)
  else
    let slope := (n * sum_xy - sum_x * sum_y) / denom
    let intercept := (sum_y - slope * sum_x) / n
    let y_mean := sum_y / n
    let ss_tot := sum_y2 - n * y_mean * y_mean
    let ss_res := ((x.zip y).map (fun p => (p.2 - (slope * p.1 + intercept)) ^ 2)).sum
    let r_squared := if (2 : ℝ) ^ (-52 : ℤ) < |ss_tot| then 1 - ss_res / ss_tot else 0
    (slope, intercept, r_squared)

/-- `compute_psd`.  The per-segment periodogram accumulation followed by
division by `n_segments` is written as sum-then-divide (identical in exact
arithmetic); `avg_psd` is indexed as a function of the bin number. -/
noncomputable def computePsd (displacements : List ℝ) (dt_mean : ℝ) :
    Except TripError PsdResultM :=
  let n := displacements.length
  if n < 32 then
    .error (.psdError ("Need at least 32 displacements, got " ++ toString n))
  else
    let mean := displacements.sum / (n : ℝ)
    let centered := displacements.map (fun x => x - mean)
    let segment_len := optimalSegmentLength n
    let overlap := segment_len / 2
    let step := segment_len - overlap
    let hann_window := hann segment_len
    let window_power := (hann_window.map (fun w => w * w)).sum / (segment_len : ℝ)
    let starts := segmentStarts n segment_len step
    if starts.length = 0 then
      .error (.psdError "No complete segments")
    else
      let avgPsd : ℕ → ℝ := fun i =>
        ((starts.map (fun s =>
          let buffer := (List.range segment_len).map
            (fun k => centered.getD (s + k) 0 * hann_window.getD k 0)
          let scale : ℝ := if i = 0 ∨ i = segment_len / 2 then 1 else 2
          scale * Complex.normSq (dftBin buffer segment_len i) /
            ((segment_len : ℝ) * window_power))).sum) / (starts.length : ℝ)
      let fs := 1 / dt_mean
      let df := fs / (segment_len : ℝ)
      let spectrum := (((List.range (segment_len / 2 + 1)).drop 1).map
        (fun i : ℕ => ((i : ℝ) * df, avgPsd i))).filter (fun p => 0 < p.2)
      if spectrum.length < 4 then
        .error (.psdError "Too few non-zero frequency bins for fitting")
      else
        let log_f := spectrum.map (fun p => Real.log p.1)
        let log_p := spectrum.map (fun p => Real.log p.2)
        let reg := linearRegression log_f log_p
        let alpha := -reg.1
        .ok
          { alpha := alpha
            r_squared := reg.2.2
            num_bins := spectrum.length
            spectrum := spectrum
            classification := PsdClassification.fromAlpha alpha }

/-- `compute_psd_from_chain`. -/
noncomputable def computePsdFromChain (displacement_km interval_seconds : List ℝ) :
    Except TripError PsdResultM :=
  if displacement_km.length ≠ interval_seconds.length then
    .error (.psdError "Displacement and interval arrays must be same length")
  else
    computePsd displacement_km
      (interval_seconds.sum / (interval_seconds.length : ℝ))

/-- Invariant of the doubling loop: with enough fuel the result `R`
satisfies `half < 2R`, is `seg` times a power of two, and either no
doubling happened (`R = seg`) or `R ≤ half`. -/
theorem oslGo_spec (half : ℕ) :
    ∀ (fuel seg : ℕ), 0 < seg → half < seg * 2 ^ fuel →
      half < oslGo half fuel seg * 2 ∧
      (∃ m, oslGo half fuel seg = seg * 2 ^ m) ∧
      (oslGo half fuel seg = seg ∨ oslGo half fuel seg ≤ half) := by
  intro fuel
  induction fuel with
  | zero =>
    intro seg hpos hlt
    rw [pow_zero, mul_one] at hlt
    refine ⟨by simp only [oslGo]; omega, ⟨0, by simp [oslGo]⟩, Or.inl (by simp [oslGo])⟩
  | succ fuel ih =>
    intro seg hpos hlt
    simp only [oslGo]
    by_cases h : seg * 2 ≤ half
    · rw [if_pos h]
      have hlt' : half < seg * 2 * 2 ^ fuel := by
        rw [pow_succ] at hlt
        calc half < seg * (2 ^ fuel * 2) := hlt
        _ = seg * 2 * 2 ^ fuel := by ring
      obtain ⟨h1, ⟨m, hm⟩, h3⟩ := ih (seg * 2) (by omega) hlt'
      refine ⟨h1, ⟨m + 1, by rw [hm]; ring⟩, ?_⟩
      rcases h3 with h3 | h3
      · exact Or.inr (by omega)
      · exact Or.inr h3
    · rw [if_neg h]
      exact ⟨by omega, ⟨0, by ring⟩, Or.inl rfl⟩

/-- Characterization of `optimal_segment_length`: the result is a power of
two, at least 64 (so the trailing `.max(32)` never fires), more than a
quarter of `n`, and either 64 itself or at most half of `n`. -/
theorem optimalSegmentLength_spec (n : ℕ) :
    64 ≤ optimalSegmentLength n ∧
    (∃ m, optimalSegmentLength n = 64 * 2 ^ m) ∧
    n < 4 * optimalSegmentLength n ∧
    (optimalSegmentLength n = 64 ∨ 2 * optimalSegmentLength n ≤ n) := by
  have hfuel : n / 2 < 64 * 2 ^ n := by
    have h1 : n < 2 ^ n := Nat.lt_two_pow n
    have h2 : 2 ^ n ≤ 64 * 2 ^ n := by omega
    omega
  obtain ⟨h1, ⟨m, hm⟩, h3⟩ := oslGo_spec (n / 2) n 64 (by omega) hfuel
  have h64 : 64 ≤ oslGo (n / 2) n 64 := by
    rw [hm]
    have : 1 ≤ 2 ^ m := Nat.one_le_two_pow
    omega
  have hmax : optimalSegmentLength n = oslGo (n / 2) n 64 := by
    unfold optimalSegmentLength
    omega
  rw [hmax]
  refine ⟨h64, ⟨m, hm⟩, by omega, ?_⟩
  rcases h3 with h3 | h3
  · exact Or.inl h3
  · exact Or.inr (by omega)

/-- For `n < 256` the doubling loop never fires: the segment length is 64. -/
theorem optimalSegmentLength_eq_64 {n : ℕ} (h : n < 256) :
    optimalSegmentLength n = 64 := by
  obtain ⟨h64, ⟨m, hm⟩, _, hd⟩ := optimalSegmentLength_spec n
  rcases hd with hd | hd
  · exact hd
  · omega

theorem optimalSegmentLength_le {n : ℕ} (h : 64 ≤ n) :
    optimalSegmentLength n ≤ n := by
  obtain ⟨h64, _, _, hd⟩ := optimalSegmentLength_spec n
  rcases hd with hd | hd
  · omega
  · omega

/-- With `n ≥ seg` the segment loop collects at least one start. -/
theorem segmentStarts_ne_nil {n seg step : ℕ} (h : seg ≤ n) :
    segmentStarts n seg step ≠ [] := by
  unfold segmentStarts
  simp only [segStartsGo]
  rw [if_pos (by omega)]
  exact List.cons_ne_nil _ _

/-- With `n < seg` no segment fits. -/
theorem segmentStarts_nil {n seg step : ℕ} (h : n < seg) :
    segmentStarts n seg step = [] := by
  unfold segmentStarts
  simp only [segStartsGo]
  rw [if_neg (by omega)]

/-- `compute_psd` on fewer than 32 samples: the explicit minimum check. -/
theorem computePsd_need32 (l : List ℝ) (dt : ℝ) (h : l.length < 32) :
    computePsd l dt =
      .error (.psdError ("Need at least 32 displacements, got " ++ toString l.length)) := by
  simp only [computePsd]
  rw [if_pos h]

/-- `compute_psd` on 32–63 samples: the minimum segment length is 64, so no
complete segment fits and the analysis fails. -/
theorem computePsd_no_segments (l : List ℝ) (dt : ℝ)
    (h32 : 32 ≤ l.length) (h64 : l.length < 64) :
    computePsd l dt = .error (.psdError "No complete segments") := by
  have hseg : optimalSegmentLength l.length = 64 :=
    optimalSegmentLength_eq_64 (by omega)
  have hnil : segmentStarts l.length (optimalSegmentLength l.length)
      (optimalSegmentLength l.length - optimalSegmentLength l.length / 2) = [] := by
    rw [hseg]
    exact segmentStarts_nil (by omega)
  simp only [computePsd]
  rw [if_neg (by omega), hnil]
  simp

/-- Segment length the way the claim words it: the largest power of two
such that at least 4 non-overlapping segments fit in `n`, with a minimum
of 32.  (Definition follows the claim's words, for refutation.) -/
def claimPow2Go (n : ℕ) : ℕ → ℕ → ℕ
  | 0, p => p
  | fuel + 1, p => if 4 * (p * 2) ≤ n then claimPow2Go n fuel (p * 2) else p

/-- Claimed segment-length rule (from the claim text, not the source). -/
def claimSegmentLength (n : ℕ) : ℕ := max (claimPow2Go n n 1) 32

/-- C3, counterexample to the claim as stated: `compute_psd` on 32 samples
fails with `PsdError` even though `n ≥ 32` (so "fails exactly when n < 32"
is false), and at `n = 256` the chosen segment length is 128 — half of `n`
— not the claimed largest power of two fitting 4 non-overlapping segments
(which would be 64). -/
theorem claim_C3_counterexample :
    computePsd (List.replicate 32 (1 : ℝ)) 300 =
      .error (.psdError "No complete segments") ∧
    optimalSegmentLength 256 = 128 ∧
    claimSegmentLength 256 = 64 ∧
    optimalSegmentLength 256 ≠ claimSegmentLength 256 := by
  refine ⟨?_, by decide, by decide, by decide⟩
  exact computePsd_no_segments _ _ (by simp) (by simp)

/-- C3, amended.  `compute_psd` fails with `PsdError` for *every* input of
length below 64: for `n < 32` via the explicit minimum check, and for
`32 ≤ n < 64` because the minimum segment length is 64 (the loop starts
there), so no complete segment fits.  For `n ≥ 64` the chosen Welch
segment length is a power of two `S ≥ 64` with `n < 4S` and (`S = 64` or
`2S ≤ n`) — i.e. the largest power of two, at least 64, no larger than
`n/2` — so at least one (in fact ≥ 3 half-overlapping) segment exists; the
`.max(32)` floor never takes effect. -/
theorem claim_C3_amended (l : List ℝ) (dt : ℝ) :
    (l.length < 32 → computePsd l dt =
      .error (.psdError ("Need at least 32 displacements, got " ++ toString l.length))) ∧
    (32 ≤ l.length → l.length < 64 →
      computePsd l dt = .error (.psdError "No complete segments")) ∧
    (64 ≤ l.length →
      64 ≤ optimalSegmentLength l.length ∧
      (∃ m, optimalSegmentLength l.length = 64 * 2 ^ m) ∧
      l.length < 4 * optimalSegmentLength l.length ∧
      (optimalSegmentLength l.length = 64 ∨ 2 * optimalSegmentLength l.length ≤ l.length) ∧
      segmentStarts l.length (optimalSegmentLength l.length)
        (optimalSegmentLength l.length - optimalSegmentLength l.length / 2) ≠ []) := by
  refine ⟨computePsd_need32 l dt, computePsd_no_segments l dt, ?_⟩
  intro h64
  obtain ⟨h1, h2, h3, h4⟩ := optimalSegmentLength_spec l.length
  exact ⟨h1, h2, h3, h4, segmentStarts_ne_nil (optimalSegmentLength_le h64)⟩

/-- Witness for `claim_C3_amended`: 40 samples (≥ 32) still fail, with the
"No complete segments" error. -/
theorem claim_C3_amended_witness :
    computePsd (List.replicate 40 (1 : ℝ)) 300 =
      .error (.psdError "No complete segments") :=
  (claim_C3_amended (List.replicate 40 (1 : ℝ)) 300).2.1 (by simp) (by simp)

theorem getD_replicate_zero (n j : ℕ) : (List.replicate n (0 : ℝ)).getD j 0 = 0 := by
  rcases Nat.lt_or_ge j n with h | h
  · simp [List.getD_eq_getElem?_getD, List.getElem?_replicate, h]
  · simp [List.getD_eq_getElem?_getD, List.getElem?_replicate, Nat.not_lt.mpr h]

theorem dftBin_replicate_zero (S N i : ℕ) :
    dftBin (List.replicate S (0 : ℝ)) N i = 0 := by
  unfold dftBin
  refine Finset.sum_eq_zero ?_
  intro k _
  rw [getD_replicate_zero]
  simp

/-- PSD of the all-zero series: every periodogram bin is exactly 0, the
`p > 0` filter empties the spectrum, and the fit fails. -/
theorem computePsd_allZero (n : ℕ) (hn : 64 ≤ n) (dt : ℝ) :
    computePsd (List.replicate n (0 : ℝ)) dt =
      .error (.psdError "Too few non-zero frequency bins for fitting") := by
  have hlen : (List.replicate n (0 : ℝ)).length = n := List.length_replicate n 0
  have hcent : (List.replicate n (0 : ℝ)).map
      (fun x => x - (List.replicate n (0 : ℝ)).sum / (n : ℝ)) =
      List.replicate n (0 : ℝ) := by
    simp
  simp only [computePsd, hlen]
  rw [if_neg (by omega), hcent]
  have hne : segmentStarts n (optimalSegmentLength n)
      (optimalSegmentLength n - optimalSegmentLength n / 2) ≠ [] :=
    segmentStarts_ne_nil (optimalSegmentLength_le hn)
  rw [if_neg (by simpa [List.length_eq_zero] using hne)]
  have hbuf : ∀ s : ℕ, (List.range (optimalSegmentLength n)).map
      (fun k => (List.replicate n (0 : ℝ)).getD (s + k) 0 *
        (hann (optimalSegmentLength n)).getD k 0) =
      List.replicate (optimalSegmentLength n) (0 : ℝ) := by
    intro s
    rw [show (List.replicate (optimalSegmentLength n) (0 : ℝ)) =
        (List.range (optimalSegmentLength n)).map (fun _ => (0 : ℝ)) from by
      rw [List.map_const', List.length_range]]
    refine List.map_congr_left ?_
    intro k _
    rw [getD_replicate_zero, zero_mul]
  split
  · rfl
  · rename_i hcond
    exfalso
    apply hcond
    refine lt_of_le_of_lt (le_of_eq (congrArg List.length (List.filter_eq_nil.mpr ?_)))
      (by simp : ([] : List (ℝ × ℝ)).length < 4)
    intro p hp
    obtain ⟨i, hi, rfl⟩ := List.mem_map.mp hp
    simp only [hbuf, dftBin_replicate_zero, Complex.normSq_zero, mul_zero, zero_div]
    simp

/-- Lévy fit of the all-zero series: nothing exceeds a positive `x_min`,
so the 20-sample check fails. -/
theorem fitLevy_allZero (n : ℕ) (x_min : ℚ) (hx : 0 < x_min) :
    fitLevy (List.replicate n (0 : ℚ)) x_min =
      .error (.levyFitError ("Need at least 20 displacements above x_min=" ++
        toString x_min ++ "km, got " ++ toString (0 : ℕ))) := by
  have hfil : (List.replicate n (0 : ℚ)).filter (fun d => x_min < d) = [] := by
    refine List.filter_eq_nil.mpr ?_
    intro a ha
    have ha0 := List.eq_of_mem_replicate ha
    subst ha0
    simp only [decide_eq_true_eq]
    exact not_lt.mpr (le_of_lt hx)
  simp only [fitLevy, hfil]
  rw [if_pos (by simp)]
  simp

/-- C4, counterexample to the claim as stated: on 100 all-zero
displacements the PSD analysis does *not* return `α ≈ 0` with the
white-noise classification — every spectral bin is zero, the `p > 0`
filter empties the spectrum, and `compute_psd` fails with `PsdError` —
while the Lévy fit fails as the claim says. -/
theorem claim_C4_counterexample :
    computePsd (List.replicate 100 (0 : ℝ)) 300 =
      .error (.psdError "Too few non-zero frequency bins for fitting") ∧
    fitLevy (List.replicate 100 (0 : ℚ)) (1 / 100) =
      .error (.levyFitError ("Need at least 20 displacements above x_min=" ++
        toString (1 / 100 : ℚ) ++ "km, got " ++ toString (0 : ℕ))) :=
  ⟨computePsd_allZero 100 (by norm_num) 300,
   fitLevy_allZero 100 (1 / 100) (by norm_num)⟩

/-- C4, amended.  On an all-zero displacement series of any length `n ≥ 64`
(large enough to pass the minimum-sample *and* segment checks), PSD
analysis fails with `PsdError` ("Too few non-zero frequency bins for
fitting") rather than returning `α ≈ 0`, and the Lévy fit fails with
`LevyFitError` because 0 < 20 samples exceed `x_min`. -/
theorem claim_C4_amended (n : ℕ) (hn : 64 ≤ n) (dt : ℝ) (x_min : ℚ)
    (hx : 0 < x_min) :
    computePsd (List.replicate n (0 : ℝ)) dt =
      .error (.psdError "Too few non-zero frequency bins for fitting") ∧
    fitLevy (List.replicate n (0 : ℚ)) x_min =
      .error (.levyFitError ("Need at least 20 displacements above x_min=" ++
        toString x_min ++ "km, got " ++ toString (0 : ℕ))) :=
  ⟨computePsd_allZero n hn dt, fitLevy_allZero n x_min hx⟩

/-- Witness for `claim_C4_amended` at `n = 64`, `x_min = 1`. -/
theorem claim_C4_amended_witness :
    computePsd (List.replicate 64 (0 : ℝ)) 300 =
      .error (.psdError "Too few non-zero frequency bins for fitting") ∧
    fitLevy (List.replicate 64 (0 : ℚ)) 1 =
      .error (.levyFitError ("Need at least 20 displacements above x_min=" ++
        toString (1 : ℚ) ++ "km, got " ++ toString (0 : ℕ))) :=
  claim_C4_amended 64 (by norm_num) 300 1 (by norm_num)

/-!
## The Criticality Engine (`src/criticality.rs`)

`compute_verdict` and `convergence_confidence`.  Rust booleans over `f64`
comparisons are modelled as (decidable, classical) propositions; the
human-readable `summary` string formats floats and is not modelled.
-/

/-- `MIN_BREADCRUMBS_PSD`. -/
def MIN_BREADCRUMBS_PSD : ℕ := 64

/-- `CriticalityConfig`. -/
structure CriticalityConfig where
  weights : HamiltonianWeights
  levy_x_min : ℚ
  alpha_min : ℝ
  alpha_max : ℝ
  beta_min : ℝ
  beta_max : ℝ

/-- `CriticalityConfig::default()`. -/
noncomputable def defaultConfig : CriticalityConfig :=
  { weights := defaultWeights
    levy_x_min := 1 / 100
    alpha_min := 0.30
    alpha_max := 0.80
    beta_min := 0.80
    beta_max := 1.20 }

/-- `Verdict` (without the unmodelled `summary` string). -/
structure Verdict where
  psd_pass : Prop
  levy_pass : Prop
  hamiltonian_pass : Prop
  confidence_sufficient : Prop

/-- `convergence_confidence`: `c(n) = 1 − exp(−n/τ)`, `τ = 200`. -/
noncomputable def convergenceConfidence (chain_length : ℕ) : ℝ :=
  1 - Real.exp (-(chain_length : ℝ) / 200)

/-- `CriticalityEngine::compute_verdict`: returns
`(trust_score, confidence, is_human, verdict)`.  `f64::clamp(0,100)` is
`min (max · 0) 100`. -/
noncomputable def computeVerdict (config : CriticalityConfig)
    (psd : PsdResultM) (levy : LevyResultM)
    (hamiltonian : ChainHamiltonianResult) (chain_length : ℕ) :
    ℝ × ℝ × Prop × Verdict :=
  let psd_pass := config.alpha_min ≤ psd.alpha ∧ psd.alpha ≤ config.alpha_max ∧
    0.5 ≤ psd.r_squared
  let levy_pass := config.beta_min ≤ levy.beta ∧ levy.beta ≤ config.beta_max ∧
    levy.ks_statistic < 0.15
  let red_fraction := (hamiltonian.alert_count.red : ℝ) /
    ((max hamiltonian.scores.length 1 : ℕ) : ℝ)
  let hamiltonian_pass := hamiltonian.mean_energy < 0.4 ∧ red_fraction < 0.05
  let confidence := convergenceConfidence chain_length
  let confidence_sufficient := 0.5 ≤ confidence
  let psd_score : ℝ :=
    if psd_pass then
      ((1 - |psd.alpha - (config.alpha_min + config.alpha_max) / 2| /
        ((config.alpha_max - config.alpha_min) / 2)) * psd.r_squared)
    else 0
  let levy_score : ℝ :=
    if levy_pass then
      ((1 - |levy.beta - (config.beta_min + config.beta_max) / 2| /
        ((config.beta_max - config.beta_min) / 2)) * (1 - levy.ks_statistic))
    else 0
  let ham_score : ℝ :=
    if hamiltonian_pass then 1 - hamiltonian.mean_energy
    else max (0.4 - hamiltonian.mean_energy) 0 / 0.4
  let trust_score :=
    min (max (40 * psd_score + 25 * levy_score + 25 * ham_score + 10 * confidence) 0) 100
  let is_human := psd_pass ∧ levy_pass ∧ hamiltonian_pass ∧ confidence_sufficient
  (trust_score, confidence, is_human,
    { psd_pass := psd_pass
      levy_pass := levy_pass
      hamiltonian_pass := hamiltonian_pass
      confidence_sufficient := confidence_sufficient })

/-!
Spec-side sub-score formulas, written from §4.7 of the specification (for
the refinement statement of C5; in particular the spec writes the
Hamiltonian fallback as `max(0, (0.4 − mean)/0.4)`).
-/

/-- §4.7 `psd_pass`. -/
def specPsdPass (config : CriticalityConfig) (psd : PsdResultM) : Prop :=
  config.alpha_min ≤ psd.alpha ∧ psd.alpha ≤ config.alpha_max ∧ 0.5 ≤ psd.r_squared

/-- §4.7 `levy_pass`. -/
def specLevyPass (config : CriticalityConfig) (levy : LevyResultM) : Prop :=
  config.beta_min ≤ levy.beta ∧ levy.beta ≤ config.beta_max ∧ levy.ks_statistic < 0.15

/-- §4.7 `hamiltonian_pass`. -/
def specHamPass (hamiltonian : ChainHamiltonianResult) : Prop :=
  hamiltonian.mean_energy < 0.4 ∧
    (hamiltonian.alert_count.red : ℝ) /
      ((max hamiltonian.scores.length 1 : ℕ) : ℝ) < 0.05

noncomputable instance (config : CriticalityConfig) (psd : PsdResultM) :
    Decidable (specPsdPass config psd) := by
  unfold specPsdPass
  infer_instance

noncomputable instance (config : CriticalityConfig) (levy : LevyResultM) :
    Decidable (specLevyPass config levy) := by
  unfold specLevyPass
  infer_instance

noncomputable instance (hamiltonian : ChainHamiltonianResult) :
    Decidable (specHamPass hamiltonian) := by
  unfold specHamPass
  infer_instance

/-- §4.7 `psd_score = (1 − |α − α_mid|/α_half) · R²` when `psd_pass`. -/
noncomputable def specPsdScore (config : CriticalityConfig) (psd : PsdResultM) : ℝ :=
  if specPsdPass config psd then
    (1 - |psd.alpha - (config.alpha_min + config.alpha_max) / 2| /
      ((config.alpha_max - config.alpha_min) / 2)) * psd.r_squared
  else 0

/-- §4.7 `levy_score = (1 − |β − β_mid|/β_half) · (1 − KS)` when `levy_pass`. -/
noncomputable def specLevyScore (config : CriticalityConfig) (levy : LevyResultM) : ℝ :=
  if specLevyPass config levy then
    (1 - |levy.beta - (config.beta_min + config.beta_max) / 2| /
      ((config.beta_max - config.beta_min) / 2)) * (1 - levy.ks_statistic)
  else 0

/-- §4.7 `ham_score = pass ? (1 − mean) : max(0, (0.4 − mean)/0.4)`. -/
noncomputable def specHamScore (hamiltonian : ChainHamiltonianResult) : ℝ :=
  if specHamPass hamiltonian then 1 - hamiltonian.mean_energy
  else max 0 ((0.4 - hamiltonian.mean_energy) / 0.4)

/-- C5.  The trust score returned by `compute_verdict` is exactly
`40·psd_score + 25·levy_score + 25·ham_score + 10·confidence` clamped to
[0, 100], with the spec's sub-score formulas (zero when the corresponding
check fails, except the Hamiltonian fallback `max(0, (0.4 − mean)/0.4)`);
in particular it always lies in [0, 100]. -/
theorem claim_C5 (config : CriticalityConfig) (psd : PsdResultM)
    (levy : LevyResultM) (hamiltonian : ChainHamiltonianResult)
    (chain_length : ℕ) :
    (computeVerdict config psd levy hamiltonian chain_length).1 =
      min (max (40 * specPsdScore config psd + 25 * specLevyScore config levy +
        25 * specHamScore hamiltonian +
        10 * convergenceConfidence chain_length) 0) 100 ∧
    (¬ specPsdPass config psd → specPsdScore config psd = 0) ∧
    (¬ specLevyPass config levy → specLevyScore config levy = 0) ∧
    (¬ specHamPass hamiltonian →
      specHamScore hamiltonian = max 0 ((0.4 - hamiltonian.mean_energy) / 0.4)) ∧
    0 ≤ (computeVerdict config psd levy hamiltonian chain_length).1 ∧
    (computeVerdict config psd levy hamiltonian chain_length).1 ≤ 100 := by
  refine ⟨?_, fun h => by rw [specPsdScore, if_neg h],
    fun h => by rw [specLevyScore, if_neg h],
    fun h => by rw [specHamScore, if_neg h], ?_, ?_⟩
  · simp only [computeVerdict, specPsdScore, specLevyScore, specHamScore,
      specPsdPass, specLevyPass, specHamPass]
    split_ifs <;>
      first
        | rfl
        | rw [← max_div_div_right (show (0:ℝ) ≤ 0.4 by norm_num)
                (0.4 - hamiltonian.mean_energy) 0, zero_div,
              max_comm ((0.4 - hamiltonian.mean_energy) / 0.4) 0]
  · simp only [computeVerdict]
    exact le_min (le_max_right _ _) (by norm_num)
  · simp only [computeVerdict]
    exact min_le_right _ _

/-- A PSD result that fails the biological check (α = 0). -/
noncomputable def psd0 : PsdResultM :=
  { alpha := 0, r_squared := 0, num_bins := 0, spectrum := []
    classification := .whiteNoise }

/-- A Lévy result that fails the human check (β = 0). -/
noncomputable def levy0 : LevyResultM :=
  { beta := 0, kappa_km := 0, ks_statistic := 1, n_samples := 0
    classification := .tooConcentrated }

/-- An empty Hamiltonian result. -/
noncomputable def ham0 : ChainHamiltonianResult :=
  { scores := [], mean_energy := 0, max_energy := 0
    alert_count := ⟨0, 0, 0, 0⟩ }

/-- Witness for `claim_C5` at concrete results: a failed PSD check yields a
zero sub-score, and the trust score of the concrete verdict is within
[0, 100]. -/
theorem claim_C5_witness :
    specPsdScore defaultConfig psd0 = 0 ∧
    0 ≤ (computeVerdict defaultConfig psd0 levy0 ham0 0).1 ∧
    (computeVerdict defaultConfig psd0 levy0 ham0 0).1 ≤ 100 := by
  obtain ⟨_, h2, _, _, h5, h6⟩ := claim_C5 defaultConfig psd0 levy0 ham0 0
  refine ⟨h2 ?_, h5, h6⟩
  intro hpass
  have := hpass.1
  rw [defaultConfig, psd0] at this
  norm_num at this

/-- C7.  The engine's confidence function is `c(n) = 1 − exp(−n/200)`; it
is monotone non-decreasing, `c(0) = 0`, `c(200) = 1 − e⁻¹ ∈ [0.60, 0.70]`,
`c(500) = 1 − e^(−5/2) > 0.90`, and `compute_verdict` reports
`confidence_sufficient` exactly when `c(n) ≥ 0.5`. -/
theorem claim_C7 :
    (∀ n : ℕ, convergenceConfidence n = 1 - Real.exp (-(n : ℝ) / 200)) ∧
    Monotone convergenceConfidence ∧
    convergenceConfidence 0 = 0 ∧
    0.60 ≤ convergenceConfidence 200 ∧ convergenceConfidence 200 ≤ 0.70 ∧
    0.90 < convergenceConfidence 500 ∧
    (∀ (config : CriticalityConfig) (psd : PsdResultM) (levy : LevyResultM)
      (ham : ChainHamiltonianResult) (n : ℕ),
      (computeVerdict config psd levy ham n).2.2.2.confidence_sufficient ↔
        0.5 ≤ convergenceConfidence n) := by
  have hE := Real.exp_pos 1
  have hinv : Real.exp 1 * (Real.exp 1)⁻¹ = 1 := mul_inv_cancel₀ (ne_of_gt hE)
  have hIpos : 0 < (Real.exp 1)⁻¹ := inv_pos.mpr hE
  refine ⟨fun n => rfl, ?_, ?_, ?_, ?_, ?_, ?_⟩
  · intro a b hab
    unfold convergenceConfidence
    have hcast : (a : ℝ) ≤ (b : ℝ) := Nat.cast_le.mpr hab
    have := Real.exp_le_exp.mpr (by linarith : -(b : ℝ) / 200 ≤ -(a : ℝ) / 200)
    linarith
  · simp [convergenceConfidence]
  · have h200 : convergenceConfidence 200 = 1 - Real.exp (-1) := by
      unfold convergenceConfidence
      norm_num
    rw [h200, Real.exp_neg]
    nlinarith [Real.exp_one_gt_d9]
  · have h200 : convergenceConfidence 200 = 1 - Real.exp (-1) := by
      unfold convergenceConfidence
      norm_num
    rw [h200, Real.exp_neg]
    nlinarith [Real.exp_one_lt_d9]
  · have h500 : convergenceConfidence 500 = 1 - Real.exp (-(5 / 2)) := by
      unfold convergenceConfidence
      norm_num
    have h5 : (100 : ℝ) < Real.exp 5 := by
      have hp : ((2.7 : ℝ)) ^ (5 : ℕ) < Real.exp 1 ^ (5 : ℕ) := by
        refine pow_lt_pow_left ?_ (by norm_num) (by norm_num)
        nlinarith [Real.exp_one_gt_d9]
      rw [Real.exp_one_pow] at hp
      norm_num at hp
      linarith
    have h25 : Real.exp (5 / 2) * Real.exp (5 / 2) = Real.exp 5 := by
      rw [← Real.exp_add]
      norm_num
    have h10 : (10 : ℝ) < Real.exp (5 / 2) := by
      nlinarith [Real.exp_pos (5 / 2)]
    rw [h500, Real.exp_neg]
    have hinv25 : Real.exp (5 / 2) * (Real.exp (5 / 2))⁻¹ = 1 :=
      mul_inv_cancel₀ (ne_of_gt (Real.exp_pos _))
    nlinarith [inv_pos.mpr (Real.exp_pos (5 / 2))]
  · intro config psd levy ham n
    exact Iff.rfl

/-!
## PoH Certificate encoding (`src/certificate.rs`)

The CBOR value tree handed to `ciborium::into_writer` is modelled
directly (the byte-level writer is the external crate's deterministic
serialization of this tree).  `f64` certificate fields are exact
rationals; an `f64 as i64` cast truncates toward zero.
-/

/-- The subset of `ciborium::Value` used by the encoder. -/
inductive CborValue where
  | int (i : ℤ)
  | bytes (bs : List ℕ)
  | float (q : ℚ)
  deriving Repr, DecidableEq

/-- One hex digit (both cases), as `hex::decode` accepts. -/
def hexDigit? (c : Char) : Option ℕ :=
  if '0' ≤ c ∧ c ≤ '9' then some (c.toNat - '0'.toNat)
  else if 'a' ≤ c ∧ c ≤ 'f' then some (c.toNat - 'a'.toNat + 10)
  else if 'A' ≤ c ∧ c ≤ 'F' then some (c.toNat - 'A'.toNat + 10)
  else none

/-- `hex::decode` on a character list: pairs of hex digits, even length. -/
def hexBytes? : List Char → Option (List ℕ)
  | [] => some []
  | [_] => none
  | c1 :: c2 :: rest => do
    let h ← hexDigit? c1
    let l ← hexDigit? c2
    let r ← hexBytes? rest
    pure ((16 * h + l) :: r)

/-- `hex::decode` on a string. -/
def hexDecode (s : String) : Option (List ℕ) := hexBytes? s.toList

/-- `f64 as i64`: truncation toward zero (for in-range values). -/
def f64ToI64 (q : ℚ) : ℤ := if 0 ≤ q then ⌊q⌋ else ⌈q⌉

/-- `PoHCertificate` (field 14's `verifier_signature` is hex of 64 bytes
when present).  `issued_at` is epoch milliseconds. -/
structure PoHCertificate where
  identity_key : String
  alpha : ℚ
  beta : ℚ
  kappa : ℚ
  trust_score : ℚ
  confidence : ℚ
  chain_length : ℕ
  unique_cells : ℕ
  mean_hamiltonian : ℚ
  verifier_key : String
  issued_at : ℤ
  valid_seconds : ℕ
  nonce : Option (List ℕ)
  chain_head_hash : Option String
  verifier_signature : Option String
  deriving Repr, DecidableEq

/-- `PoHCertificate::to_cbor_signable`: the integer-keyed map of fields
0–13 (12 and 13 only when present), in push order. -/
def toCborSignable (cert : PoHCertificate) :
    Except TripError (List (ℤ × CborValue)) := do
  let id_bytes ← match hexDecode cert.identity_key with
    | some b => Except.ok b
    | none => Except.error (.certificateError "Invalid identity hex")
  let vk_bytes ← match hexDecode cert.verifier_key with
    | some b => Except.ok b
    | none => Except.error (.certificateError "Invalid verifier hex")
  let field13 : List (ℤ × CborValue) ← match cert.chain_head_hash with
    | some h =>
      match hexDecode h with
      | some hb => Except.ok [((13 : ℤ), CborValue.bytes hb)]
      | none => Except.error (.certificateError "Invalid hash hex")
    | none => Except.ok []
  pure ([(0, .bytes id_bytes), (1, .float cert.alpha), (2, .float cert.beta),
    (3, .float cert.kappa), (4, .int (f64ToI64 cert.trust_score)),
    (5, .float cert.confidence), (6, .int (cert.chain_length : ℤ)),
    (7, .int (cert.unique_cells : ℤ)), (8, .float cert.mean_hamiltonian),
    (9, .bytes vk_bytes), (10, .int (Int.fdiv cert.issued_at 1000)),
    (11, .int (cert.valid_seconds : ℤ))] ++
    (match cert.nonce with
     | some nc => [((12 : ℤ), CborValue.bytes nc)]
     | none => []) ++ field13)

/-- `PoHCertificate::to_cbor`: per the source, "For now, return the
signable portion" — field 14 is never emitted. -/
def toCbor (cert : PoHCertificate) : Except TripError (List (ℤ × CborValue)) :=
  toCborSignable cert

/-- A full certificate (the repository's own test values, with a
verifier signature present). -/
def testCert : PoHCertificate :=
  { identity_key := String.mk (List.replicate 64 'a')
    alpha := 11 / 20
    beta := 1
    kappa := 50
    trust_score := 75
    confidence := 17 / 20
    chain_length := 300
    unique_cells := 42
    mean_hamiltonian := 3 / 20
    verifier_key := String.mk (List.replicate 64 'b')
    issued_at := 1700000000000
    valid_seconds := 3600
    nonce := some (List.replicate 16 0)
    chain_head_hash := some (String.mk (List.replicate 64 'c'))
    verifier_signature := some (String.mk (List.replicate 128 'd')) }

/-- The map `to_cbor` actually produces for `testCert`: fields 0–13 only. -/
def testCertMap : List (ℤ × CborValue) :=
  [(0, .bytes (List.replicate 32 170)), (1, .float (11 / 20)), (2, .float 1),
   (3, .float 50), (4, .int 75), (5, .float (17 / 20)), (6, .int 300),
   (7, .int 42), (8, .float (3 / 20)), (9, .bytes (List.replicate 32 187)),
   (10, .int 1700000000), (11, .int 3600),
   (12, .bytes (List.replicate 16 0)), (13, .bytes (List.replicate 32 204))]

/-- C8.  `to_cbor` on a full certificate — verifier signature present —
returns exactly the signable map of fields 0–13: it is identical to
`to_cbor_signable` and contains no field-14 entry carrying the Ed25519
signature, contradicting both the claim and `to_cbor`'s own doc comment
("Encode the full certificate (including signature)"). -/
theorem claim_C8_code_bug :
    toCbor testCert = toCborSignable testCert ∧
    toCbor testCert = .ok testCertMap ∧
    testCertMap.map Prod.fst = [0, 1, 2, 3, 4, 5, 6, 7, 8, 9, 10, 11, 12, 13] ∧
    (14 : ℤ) ∉ testCertMap.map Prod.fst ∧
    testCert.verifier_signature = some (String.mk (List.replicate 128 'd')) := by
  refine ⟨rfl, ?_, rfl, by decide, rfl⟩
  rfl
